import Mathlib

/-!
Shallow embedding of `qualpy` (src/qualpy/wrapper.py), a thin client around
the REST API of a survey platform.  Network interaction is modelled by an oracle:
a list of responses consumed in arrival order, one per HTTP request the code
issues.  Each Python method relevant to the claims is translated into a Lean
function over that oracle; Python exceptions become explicit error outcomes.
-/

namespace Qualpy

/-! ## Export poller (`_get_surv_data`, wrapper.py lines 160-254)

A status-poll response carries an optional `fileId` and a `status` string
(the `percentComplete` field is read and possibly printed but never used
for control flow, so it is modelled as a plain number).  The download step
`pd.read_csv` is modelled by a parameter `dl : String → Csv` mapping a file
id to the parsed CSV payload. -/

/-- One JSON response to a status-check GET, as read by the poll loop. -/
structure PollResp where
  percentComplete : Nat
  fileId : Option String
  status : String
  deriving Repr, DecidableEq

/-- A parsed CSV payload: header column names and data rows. -/
structure Csv where
  cols : List String
  rows : List (List String)
  deriving Repr, DecidableEq

/-- A pandas-style data frame: columns, row index, rows. -/
structure DF where
  cols : List String
  index : List Nat
  rows : List (List String)
  deriving Repr, DecidableEq

/-- Lowercasing used by the pandas idiom df.columns.str.lower(): each
character of the name mapped to its lowercase form. -/
def lowerString (s : String) : String :=
  ⟨s.data.map Char.toLower⟩

/-- Model of pd.read_csv on a payload: fresh range index. -/
def readCsv (c : Csv) : DF :=
  { cols := c.cols, index := List.range c.rows.length, rows := c.rows }

/-- The post-download transform of `_get_surv_data`:
`df.iloc[2:, :]`, `reset_index(drop=True)`, lowercase columns
(wrapper.py lines 247-252). -/
def transformExport (df : DF) : DF :=
  let d1 : DF := { cols := df.cols, index := df.index.drop 2, rows := df.rows.drop 2 }
  let d2 : DF := { d1 with index := List.range d1.rows.length }
  { d2 with cols := d2.cols.map lowerString }

/-- Possible outcomes of `_get_surv_data` after the poll loop exits. -/
inductive SurvOutcome where
  /-- download performed, transformed table returned -/
  | ok (df : DF)
  /-- Python raises Exception with message "export failed" (line 228) -/
  | exportFailed
  /-- Variable req_check_resp read at line 230 although the loop body never ran:
  Python `NameError` (unbound local) -/
  | nameError
  /-- Field fileId missing on the last poll response at line 230: KeyError -/
  | keyErrorFileId
  /-- the oracle has no further response: the client would block on I/O -/
  | blocked (df : Unit)
  deriving Repr, DecidableEq

/-- Result of a `_get_surv_data` run: outcome, number of status-check GET
requests issued, number of file-download GET requests issued. -/
structure SurvResult where
  outcome : SurvOutcome
  polls : Nat
  downloads : Nat
  deriving Repr, DecidableEq

/-- Mutable state of the poll loop: `prog_status`, `ready`, the last bound
value of `req_check_resp` (none while the loop body has not run), and the
count of status checks issued so far. -/
structure PollSt where
  status : String
  ready : Option String
  last : Option PollResp
  polls : Nat
  deriving Repr, DecidableEq

/-- The loop guard of lines 202-204:
prog_status is neither "complete" nor "failed", and ready is None. -/
def pollGuard (st : PollSt) : Bool :=
  st.status ≠ "complete" && st.status ≠ "failed" && st.ready.isNone

/-- One iteration of the loop body (lines 205-221): issue the status GET,
set `ready` from `fileId` if present (`except KeyError: pass`), then read
`status`. -/
def pollStep (st : PollSt) (r : PollResp) : PollSt :=
  { status := r.status
    ready := match r.fileId with
      | some f => some f
      | none => st.ready
    last := some r
    polls := st.polls + 1 }

/-- Code after the loop (lines 223-254): `failed` check, read
the fileId field of the last poll response, download and transform. -/
def pollFinish (dl : String → Csv) (st : PollSt) : SurvResult :=
  if st.status = "failed" then
    { outcome := .exportFailed, polls := st.polls, downloads := 0 }
  else
    match st.last with
    | none => { outcome := .nameError, polls := st.polls, downloads := 0 }
    | some r =>
      match r.fileId with
      | none => { outcome := .keyErrorFileId, polls := st.polls, downloads := 0 }
      | some fid =>
        { outcome := .ok (transformExport (readCsv (dl fid)))
          polls := st.polls
          downloads := 1 }

/-- The poll loop, consuming the oracle of status responses. -/
def pollLoop (dl : String → Csv) : List PollResp → PollSt → SurvResult
  | [], st =>
    if pollGuard st then
      { outcome := .blocked (), polls := st.polls, downloads := 0 }
    else pollFinish dl st
  | r :: rest, st =>
    if pollGuard st then pollLoop dl rest (pollStep st r)
    else pollFinish dl st

/-- Function `_get_surv_data` from the point the export-creation POST has returned a
status `initStatus` (line 199): `ready = None`, then the loop, then the
post-loop code. -/
def getSurvData (dl : String → Csv) (initStatus : String)
    (oracle : List PollResp) : SurvResult :=
  pollLoop dl oracle { status := initStatus, ready := none, last := none, polls := 0 }

/-! ## Distribution-links paginator (`_get_dist_links`, wrapper.py lines 327-382)

A GET on a links page either yields a well-formed page (an `elements` list
and an optional `nextPage` cursor) or is missing the expected field, so that
reading the elements or nextPage field of the JSON raises KeyError.
Elements are abstracted to natural numbers.  The oracle lists the responses
in the order the GETs are issued. -/

/-- One response to a links-page GET: well formed, or missing the field. -/
inductive DLResp where
  /-- parsing the response raises `KeyError` -/
  | bad
  /-- well-formed page with its elements and `nextPage` cursor -/
  | page (elements : List Nat) (next : Option String)
  deriving Repr, DecidableEq

/-- Outcomes of `_get_dist_links`. -/
inductive DLOutcome where
  /-- the while loop finished; the pages collected in `dfs`, in order -/
  | ok (pages : List (List Nat))
  /-- Python raises KeyError with message "Tried 10 attempts with a failure." (line 375),
  the for-else taken after all 10 attempts completed without `break` -/
  | exhaustedRetries
  /-- a `KeyError` raised inside the `except KeyError:` handler (lines
  364-371) propagates out of the function un-caught -/
  | uncaughtKeyError
  /-- Call requests.get(None): the attempt loop re-entered after `nextPage`
  became `None`; raises a non-KeyError request exception -/
  | getNoneError
  /-- the oracle has no further response: the client would block on I/O -/
  | blocked
  deriving Repr, DecidableEq

/-- The retry loop, Python for attempt in range(10) (lines 353-376), started with
`attempts` attempts left.  The try block (lines 354-362) fetches `next`,
appends the parsed elements and updates the cursor; on `KeyError` the
except block (lines 363-371) repeats the same statements, and a `KeyError`
there propagates.  `break` runs only via the `else:` clause, i.e. only when
the TRY block succeeded; after a successful EXCEPT block the for loop
continues with the next attempt.  Returns either a terminal outcome or
(pages so far, new cursor, remaining oracle) for the enclosing while loop. -/
def attemptLoop : Nat → List DLResp → Option String → List (List Nat) →
    DLOutcome ⊕ (List (List Nat) × Option String × List DLResp)
  | 0, _, _, _ => .inl .exhaustedRetries
  | _ + 1, _, none, _ => .inl .getNoneError
  | _ + 1, [], some _, _ => .inl .blocked
  | _ + 1, .page els nx :: rest, some _, pages =>
    .inr (pages ++ [els], nx, rest)
  | n + 1, .bad :: rest, some _, pages =>
    match rest with
    | [] => .inl .blocked
    | .bad :: _ => .inl .uncaughtKeyError
    | .page els nx :: rest2 => attemptLoop n rest2 nx (pages ++ [els])

/-- The while loop over `nextPage` of lines 352-376, with fuel
bounding the iterations (each iteration that continues consumes at least
one oracle response, so `oracle.length + 1` fuel is always enough). -/
def distLinksLoop : Nat → List DLResp → Option String →
    List (List Nat) → DLOutcome
  | 0, _, _, _ => .blocked
  | _ + 1, _, none, pages => .ok pages
  | fuel + 1, oracle, some c, pages =>
    match attemptLoop 10 oracle (some c) pages with
    | .inl out => out
    | .inr (pages2, next2, rest) => distLinksLoop fuel rest next2 pages2

/-- Function `_get_dist_links` from the initial GET (line 343): the first page is
read without any retry — line 346 reads `nextPage` from it, so a malformed
first response raises `KeyError` immediately — then the retry/while loop
runs over the remaining oracle. -/
def getDistLinks (oracle : List DLResp) : DLOutcome :=
  match oracle with
  | [] => .blocked
  | .bad :: _ => .uncaughtKeyError
  | .page els nx :: rest =>
    distLinksLoop (rest.length + 1) rest nx [els]

/-! ## Mailing-list cache (`_list_mailing_lists`, `get_mailing_list_id`,
`create_mailing_list`, wrapper.py lines 36-66, 130-149, 384-416)

A listing response is a list of (name, id) pairs in arrival order; the
other attributes a mailing-list object carries play no role in the claims.
Python exceptions (`KeyError` from a failed dict lookup, `ValueError` from
duplicate detection) become `Except.error`. -/

/-- Function `_list_mailing_lists` applied to a listing response: build the set of
names, fail when there are fewer unique names than entries (lines 404-412),
otherwise return the name-keyed cache (line 414), here the association list
itself (names are unique, so first-match lookup equals dict lookup). -/
def listMailingLists (listing : List (String × String)) :
    Except Unit (List (String × String)) :=
  if ((listing.map Prod.fst).dedup).length ≠ listing.length then .error ()
  else .ok listing

/-- Functions `get_mailing_list_id` and `_get_mailing_list_attr` (lines 130-149,
454-474): look the name up in the cache `self.mls`; a missing name raises
`KeyError`, re-raised unchanged. -/
def getMailingListId (mls : List (String × String)) (name : String) :
    Except Unit String :=
  match mls.lookup name with
  | some i => .ok i
  | none => .error ()

/-- Client state relevant to `create_mailing_list`: the cache `self.mls`
and the number of creation POSTs issued so far. -/
structure MLState where
  mls : List (String × String)
  posts : Nat
  deriving Repr, DecidableEq

/-- Function `create_mailing_list` (lines 36-66).  `newListing` is the listing
the server returns for the reload GET after the creation POST (the response
of the POST itself is ignored by the code).  Cache hit: return the cached id, no
POST.  Cache miss (`KeyError`): POST, reload the whole cache via
`_list_mailing_lists`, resolve again; errors from the reload or the second
resolve propagate. -/
def createMailingList (s : MLState) (name : String)
    (newListing : List (String × String)) : Except Unit (String × MLState) :=
  match getMailingListId s.mls name with
  | .ok i => .ok (i, s)
  | .error _ =>
    match listMailingLists newListing with
    | .error _ => .error ()
    | .ok m =>
      match getMailingListId m name with
      | .ok i => .ok (i, { mls := m, posts := s.posts + 1 })
      | .error _ => .error ()

/-! ## Contacts paginator and row flattener (`_get_distribution`,
`_parse_distribution_page`, wrapper.py lines 287-325, 543-557)

A contact record carries four scalar fields and a nested `emailHistory`
list of JSON objects; objects are association lists over a small JSON value
type.  A contacts-page response carries the parsed elements and the
`nextPage` cursor; the oracle lists the responses in arrival order. -/

/-- JSON scalar values occurring in the flattened rows. -/
inductive JVal where
  | str (s : String)
  | bool (b : Bool)
  deriving Repr, DecidableEq

/-- A JSON object as an association list (unique keys). -/
abbrev JObj := List (String × JVal)

/-- Python dict merge of `a` with `b`: keys of `a` in order, taking the value
from `b` when `b` also has the key, followed by the keys only `b` has, in
the order they occur in `b`. -/
def dictUnion (a b : JObj) : JObj :=
  (a.map fun kv =>
    match b.lookup kv.1 with
    | some v => (kv.1, v)
    | none => kv) ++
    b.filter fun kv => (a.lookup kv.1).isNone

/-- One contact record of a contacts page. -/
structure Person where
  id : String
  email : String
  language : String
  unsubscribed : Bool
  emailHistory : List JObj
  deriving Repr, DecidableEq

/-- Dictionary p_dict of lines 547-552: the contact-level fields. -/
def pdict (p : Person) : JObj :=
  [("contactid", .str p.id), ("email", .str p.email),
   ("language", .str p.language), ("unsubscribed", .bool p.unsubscribed)]

/-- Function `_parse_distribution_page` (lines 543-557): one accumulator p_df;
for each person, for each entry of its email history, append
`p_dict | email`. -/
def parseDistributionPage (people : List Person) : List JObj :=
  people.foldl
    (fun acc p => p.emailHistory.foldl (fun a e => a ++ [dictUnion (pdict p) e]) acc)
    []

/-- One response to a contacts-page GET, as read by `_get_distribution`. -/
structure ContactPage where
  elements : List Person
  nextPage : Option String
  deriving Repr, DecidableEq

/-- The `while nextPage is not None:` loop of lines 309-320: fetch the
cursor, parse and extend, update the cursor.  Returns `none` when the
oracle is exhausted while a cursor is still pending (the client would block
on I/O). -/
def getDistributionLoop : List ContactPage → Option String → List JObj →
    Option (List JObj)
  | _, none, rows => some rows
  | [], some _, _ => none
  | p :: rest, some _, rows =>
    getDistributionLoop rest p.nextPage (rows ++ parseDistributionPage p.elements)

/-- Function `_get_distribution` (lines 287-325): initial GET (line 301), read
`nextPage`, parse the first page, then the loop. -/
def getDistribution (oracle : List ContactPage) : Option (List JObj) :=
  match oracle with
  | [] => none
  | p :: rest => getDistributionLoop rest p.nextPage (parseDistributionPage p.elements)

/-! ## Client construction (`QualtricsAPI`, wrapper.py lines 21-34)

The field default of api_token, written field(repr=False, default=os.environ["QUAL_APIKEY"]), is
the dataclass field default is EVALUATED WHEN THE CLASS BODY IS EXECUTED,
i.e. at module import, so the environment variable is read exactly once
there and its absence raises `KeyError` at import time, before any
constructor call.  The environment is modelled as `Option String` for that
one variable; the class object produced by a successful import carries the
captured default.  (`__post_init__` also fetches the mailing-list cache;
that network step is independent of the token handling the claim is about
and is not modelled here.) -/

/-- The class object created by executing the `@dataclass class QualtricsAPI`
body: it captures the evaluated field default. -/
structure QualtricsAPIClass where
  defaultToken : String
  deriving Repr, DecidableEq

/-- Executing the module and class body: reads the environment variable;
a missing variable raises `KeyError` here, unconditionally. -/
def defineQualtricsAPI (env : Option String) : Except Unit QualtricsAPIClass :=
  match env with
  | none => .error ()
  | some v => .ok { defaultToken := v }

/-- A constructed instance: the dataclass fields and the headers built in
`__post_init__` (lines 27-31). -/
structure QualtricsAPIInst where
  base_url : String
  library_id : String
  api_token : String
  headers : List (String × String)
  deriving Repr, DecidableEq

/-- The dataclass constructor: an omitted `api_token` argument takes the
default captured by the class object. -/
def constructQualtricsAPI (cls : QualtricsAPIClass) (base lib : String)
    (token : Option String) : QualtricsAPIInst :=
  let tok := token.getD cls.defaultToken
  { base_url := base, library_id := lib, api_token := tok
    headers := [("content-type", "application/json"), ("x-api-token", tok)] }

/-- The whole flow a caller experiences: import the module (class
definition), then construct. -/
def constructFlow (env : Option String) (base lib : String)
    (token : Option String) : Except Unit QualtricsAPIInst :=
  (defineQualtricsAPI env).map fun cls => constructQualtricsAPI cls base lib token

/-! ## Helper lemmas about the export poller -/

/-- The post-loop code never changes the number of status checks issued. -/
theorem pollFinish_polls (dl : String → Csv) (st : PollSt) :
    (pollFinish dl st).polls = st.polls := by
  unfold pollFinish
  split
  · rfl
  · cases st.last with
    | none => rfl
    | some r => cases hr : r.fileId <;> simp [hr]

/-- On an empty oracle or a guard failure, the loop finishes at once; with a
false guard this is exactly the post-loop code. -/
theorem pollLoop_guard_false (dl : String → Csv) (oracle : List PollResp)
    (st : PollSt) (hg : pollGuard st = false) :
    pollLoop dl oracle st = pollFinish dl st := by
  cases oracle <;> simp [pollLoop, hg]

/-- Consuming a run of non-terminal responses followed by a response `fin`:
the loop reaches the state just after processing `fin`, having issued one
status check per consumed response. -/
theorem pollLoop_consume (dl : String → Csv) (pre : List PollResp)
    (fin : PollResp) (post : List PollResp) (st : PollSt)
    (hs1 : st.status ≠ "complete") (hs2 : st.status ≠ "failed")
    (hr : st.ready = none)
    (hpre : ∀ r ∈ pre, r.status ≠ "complete" ∧ r.status ≠ "failed" ∧ r.fileId = none) :
    pollLoop dl (pre ++ fin :: post) st =
      pollLoop dl post
        { status := fin.status, ready := fin.fileId, last := some fin,
          polls := st.polls + pre.length + 1 } := by
  induction pre generalizing st with
  | nil =>
    have hg : pollGuard st = true := by
      simp [pollGuard, hs1, hs2, hr]
    have hstep : pollStep st fin =
        { status := fin.status, ready := fin.fileId, last := some fin,
          polls := st.polls + 0 + 1 } := by
      unfold pollStep
      cases hf : fin.fileId <;> simp [hf, hr]
    simp only [List.nil_append, pollLoop, hg, if_true, List.length_nil, hstep]
  | cons r pre ih =>
    have hg : pollGuard st = true := by
      simp [pollGuard, hs1, hs2, hr]
    obtain ⟨hr1, hr2, hr3⟩ := hpre r (List.mem_cons_self r pre)
    have hstep : pollStep st r =
        { status := r.status, ready := st.ready, last := some r,
          polls := st.polls + 1 } := by
      unfold pollStep
      rw [hr3]
    have hrec := ih (pollStep st r)
      (by rw [hstep]; exact hr1)
      (by rw [hstep]; exact hr2)
      (by rw [hstep]; exact hr)
      (fun x hx => hpre x (List.mem_cons_of_mem r hx))
    have hpolls : (pollStep st r).polls = st.polls + 1 := rfl
    rw [hpolls] at hrec
    have harith : st.polls + 1 + pre.length + 1 = st.polls + (pre.length + 1) + 1 := by
      omega
    rw [harith] at hrec
    simp only [List.cons_append, pollLoop, hg, if_true, List.length_cons]
    exact hrec

/-- The number of status checks never decreases along the loop. -/
theorem pollLoop_polls_le (dl : String → Csv) (oracle : List PollResp)
    (st : PollSt) : st.polls ≤ (pollLoop dl oracle st).polls := by
  induction oracle generalizing st with
  | nil =>
    by_cases hg : pollGuard st <;> simp [pollLoop, hg, pollFinish_polls]
  | cons r rest ih =>
    by_cases hg : pollGuard st
    · simp only [pollLoop, hg, if_true]
      have h1 : st.polls ≤ (pollStep st r).polls := by
        simp [pollStep]
      exact h1.trans (ih (pollStep st r))
    · simp [pollLoop, hg, pollFinish_polls]

/-- A successful outcome from a state whose loop body has not yet run
requires at least one more status check. -/
theorem pollLoop_ok_needs_poll (dl : String → Csv) (oracle : List PollResp)
    (st : PollSt) (df : DF) (hlast : st.last = none)
    (hok : (pollLoop dl oracle st).outcome = .ok df) :
    st.polls + 1 ≤ (pollLoop dl oracle st).polls := by
  cases oracle with
  | nil =>
    exfalso
    by_cases hg : pollGuard st
    · simp [pollLoop, hg] at hok
    · simp only [Bool.not_eq_true] at hg
      rw [pollLoop_guard_false dl [] st hg] at hok
      unfold pollFinish at hok
      rw [hlast] at hok
      split at hok <;> simp at hok
  | cons r rest =>
    by_cases hg : pollGuard st
    · simp only [pollLoop, hg, if_true] at hok ⊢
      have h1 : st.polls + 1 = (pollStep st r).polls := rfl
      rw [h1]
      exact pollLoop_polls_le dl rest (pollStep st r)
    · exfalso
      simp only [Bool.not_eq_true] at hg
      rw [pollLoop_guard_false dl _ st hg] at hok
      unfold pollFinish at hok
      rw [hlast] at hok
      split at hok <;> simp at hok

/-- The transform applied to a freshly parsed CSV: drop the two header
rows, renumber the index from zero, lowercase the columns. -/
theorem transformExport_readCsv (c : Csv) :
    transformExport (readCsv c) =
      { cols := c.cols.map lowerString,
        index := List.range (c.rows.length - 2),
        rows := c.rows.drop 2 } := by
  simp [transformExport, readCsv, List.length_drop]

/-! ## Claim theorems for the export poller -/

/-- C4: for every simulated export job that stays in progress for `k - 1`
polls and reports status complete (with a file id) on the k-th poll, the
poller issues exactly `k = pre.length + 1` status checks, downloads once,
and returns the downloaded CSV with its first two data rows dropped, the
row index reset to start at zero, and every column name lowercased. -/
theorem export_complete_after_k_polls (dl : String → Csv) (pre : List PollResp)
    (fin : PollResp) (fid : String)
    (hpre : ∀ r ∈ pre, r.status = "inProgress" ∧ r.fileId = none)
    (hst : fin.status = "complete") (hfid : fin.fileId = some fid) :
    getSurvData dl "inProgress" (pre ++ [fin]) =
      { outcome := .ok { cols := (dl fid).cols.map lowerString,
                         index := List.range ((dl fid).rows.length - 2),
                         rows := (dl fid).rows.drop 2 },
        polls := pre.length + 1, downloads := 1 } := by
  unfold getSurvData
  rw [pollLoop_consume dl pre fin [] _ (by decide) (by decide) rfl
    (fun r hr => ⟨by rw [(hpre r hr).1]; decide, by rw [(hpre r hr).1]; decide,
      (hpre r hr).2⟩)]
  have hg : pollGuard
      { status := fin.status, ready := fin.fileId, last := some fin,
        polls := 0 + pre.length + 1 } = false := by
    simp [pollGuard, hst]
  rw [pollLoop_guard_false dl [] _ hg]
  simp [pollFinish, hst, hfid, transformExport_readCsv]

/-- C4 witness: a job that polls in-progress once and completes on the
second poll yields exactly 2 status checks and the transformed table. -/
theorem export_complete_after_k_polls_witness :
    getSurvData (fun _ => ⟨["A"], [["h1"], ["h2"], ["d1"]]⟩) "inProgress"
        [⟨5, none, "inProgress"⟩, ⟨100, some "f1", "complete"⟩] =
      { outcome := .ok ⟨["a"], [0], [["d1"]]⟩, polls := 2, downloads := 1 } := by
  have h := export_complete_after_k_polls (fun _ => ⟨["A"], [["h1"], ["h2"], ["d1"]]⟩)
    [⟨5, none, "inProgress"⟩] ⟨100, some "f1", "complete"⟩ "f1"
    (by decide) rfl rfl
  exact h.trans (by decide)

/-- C5: for every export job that stays in progress and then reports status
failed, the poller raises the export-failure error, issues no further
status checks (the oracle tail is never consumed), performs no download,
and returns no table. -/
theorem export_failed_no_download (dl : String → Csv) (pre : List PollResp)
    (fin : PollResp) (post : List PollResp)
    (hpre : ∀ r ∈ pre, r.status = "inProgress" ∧ r.fileId = none)
    (hst : fin.status = "failed") :
    getSurvData dl "inProgress" (pre ++ fin :: post) =
      { outcome := .exportFailed, polls := pre.length + 1, downloads := 0 } := by
  unfold getSurvData
  rw [pollLoop_consume dl pre fin post _ (by decide) (by decide) rfl
    (fun r hr => ⟨by rw [(hpre r hr).1]; decide, by rw [(hpre r hr).1]; decide,
      (hpre r hr).2⟩)]
  have hg : pollGuard
      { status := fin.status, ready := fin.fileId, last := some fin,
        polls := 0 + pre.length + 1 } = false := by
    simp [pollGuard, hst]
  rw [pollLoop_guard_false dl post _ hg]
  unfold pollFinish
  rw [hst]
  simp

/-- C5 witness: a job that goes in-progress then failed stops after 2 status
checks with the export-failure error, ignoring the rest of the oracle. -/
theorem export_failed_no_download_witness :
    getSurvData (fun _ => ⟨[], []⟩) "inProgress"
        [⟨5, none, "inProgress"⟩, ⟨40, none, "failed"⟩, ⟨0, some "f", "complete"⟩] =
      { outcome := .exportFailed, polls := 2, downloads := 0 } :=
  export_failed_no_download (fun _ => ⟨[], []⟩) [⟨5, none, "inProgress"⟩]
    ⟨40, none, "failed"⟩ [⟨0, some "f", "complete"⟩] (by decide) rfl

/-- C6: the poller stops at the first response satisfying either
termination condition — a present file id, or status complete or failed —
and issues no further status checks, whatever follows in the oracle; in
particular a file id arriving while the status is still in progress stops
the polling. -/
theorem poller_stops_at_first_termination (dl : String → Csv)
    (pre : List PollResp) (r : PollResp) (post : List PollResp)
    (hpre : ∀ x ∈ pre, x.status = "inProgress" ∧ x.fileId = none)
    (htrig : r.fileId.isSome ∨ r.status = "complete" ∨ r.status = "failed") :
    (getSurvData dl "inProgress" (pre ++ r :: post)).polls = pre.length + 1 := by
  unfold getSurvData
  rw [pollLoop_consume dl pre r post _ (by decide) (by decide) rfl
    (fun x hx => ⟨by rw [(hpre x hx).1]; decide, by rw [(hpre x hx).1]; decide,
      (hpre x hx).2⟩)]
  have hg : pollGuard
      { status := r.status, ready := r.fileId, last := some r,
        polls := 0 + pre.length + 1 } = false := by
    rcases htrig with h | h | h
    · cases hf : r.fileId with
      | none => rw [hf] at h; simp at h
      | some v => simp [pollGuard, hf]
    · simp [pollGuard, h]
    · simp [pollGuard, h]
  rw [pollLoop_guard_false dl post _ hg, pollFinish_polls]
  simp

/-- C6 witness: a file id arriving on the second poll while the status is
still in progress stops the polling after exactly 2 status checks, with a
third response left unread. -/
theorem poller_stops_at_first_termination_witness :
    (getSurvData (fun _ => ⟨[], []⟩) "inProgress"
      [⟨5, none, "inProgress"⟩, ⟨50, some "f", "inProgress"⟩,
       ⟨60, none, "inProgress"⟩]).polls = 2 :=
  poller_stops_at_first_termination (fun _ => ⟨[], []⟩) [⟨5, none, "inProgress"⟩]
    ⟨50, some "f", "inProgress"⟩ [⟨60, none, "inProgress"⟩] (by decide)
    (Or.inl (by rfl))

/-- C10: when the export-creation response itself already reports status
complete, the poll loop body runs zero times and the code crashes reading
the unbound poll-response variable instead of downloading (no download is
issued); moreover any run that does return a table issued at least one
status check. -/
theorem export_zero_poll_crash (dl : String → Csv) (oracle : List PollResp)
    (init : String) (df : DF) :
    getSurvData dl "complete" oracle =
      { outcome := .nameError, polls := 0, downloads := 0 } ∧
    ((getSurvData dl init oracle).outcome = .ok df →
      1 ≤ (getSurvData dl init oracle).polls) := by
  constructor
  · have hg : pollGuard ⟨"complete", none, none, 0⟩ = false := by decide
    unfold getSurvData
    rw [pollLoop_guard_false dl oracle _ hg]
    rfl
  · intro hok
    have h := pollLoop_ok_needs_poll dl oracle
      { status := init, ready := none, last := none, polls := 0 } df rfl hok
    simpa using h

/-- C10 witness: with an immediately-complete creation response the call
crashes with zero polls; a run returning a table polled at least once. -/
theorem export_zero_poll_crash_witness :
    getSurvData (fun _ => ⟨[], []⟩) "complete" [] =
      { outcome := .nameError, polls := 0, downloads := 0 } ∧
    1 ≤ (getSurvData (fun _ => ⟨[], []⟩) "inProgress"
      [⟨0, some "f", "complete"⟩]).polls := by
  refine ⟨(export_zero_poll_crash (fun _ => ⟨[], []⟩) [] "x" ⟨[], [], []⟩).1, ?_⟩
  exact (export_zero_poll_crash (fun _ => ⟨[], []⟩) [⟨0, some "f", "complete"⟩]
    "inProgress" ⟨[], [], []⟩).2 (by decide)

/-! ## Claim theorem for the distribution-links retry loop

The spec describes a bounded retry of 10 attempts tolerating the transient
missing-field KeyError.  The code does not implement that: the except
handler itself re-fetches, so a second consecutive failure raises an
un-caught KeyError after only two fetch attempts, and a success inside the
handler does not break the attempt loop. -/

/-- C1: the retry loop of the distribution-links paginator does not behave
as a bounded 10-attempt retry.  With the second page fetch failing twice
consecutively, the call dies with an un-caught KeyError (after 2 attempts,
not 10); with the fetch failing 9 times and then succeeding, the call does
not return successfully but dies the same way; and with 10 consecutive
failures it dies with the same un-caught KeyError instead of the
exhausted-retries error. -/
theorem dist_links_retry_broken :
    getDistLinks [.page [1] (some "B"), .bad, .bad] = .uncaughtKeyError ∧
    getDistLinks (.page [1] (some "B") ::
      (List.replicate 9 .bad ++ [.page [2] none])) = .uncaughtKeyError ∧
    getDistLinks (.page [1] (some "B") :: List.replicate 10 .bad) =
      .uncaughtKeyError := by
  decide

/-! ## Claim theorems for the mailing-list cache -/

/-- A list with a repeated element dedups to a strictly shorter list. -/
theorem dedup_length_ne_of_not_nodup {α : Type} [DecidableEq α] (l : List α)
    (h : ¬ l.Nodup) : l.dedup.length ≠ l.length := by
  intro hlen
  exact h ((l.dedup_sublist.eq_of_length hlen) ▸ l.nodup_dedup)

/-- C2: create_mailing_list is idempotent.  If the name already resolves in
the cache, the cached id is returned and the state (including the POST
count) is unchanged.  If it does not resolve, and the reloaded listing has
unique names and contains the name, then exactly one creation POST is
issued, the cache is replaced by the whole new listing, the id obtained by
resolving again is returned, a subsequent resolve yields that same id, and
a second create of the same name returns the same id without a further
POST. -/
theorem create_mailing_list_idempotent (s : MLState) (name : String)
    (nl : List (String × String)) :
    (∀ i, s.mls.lookup name = some i → createMailingList s name nl = .ok (i, s)) ∧
    (s.mls.lookup name = none →
      (nl.map Prod.fst).Nodup →
      ∀ i, nl.lookup name = some i →
        createMailingList s name nl = .ok (i, ⟨nl, s.posts + 1⟩) ∧
        getMailingListId nl name = .ok i ∧
        createMailingList ⟨nl, s.posts + 1⟩ name nl =
          .ok (i, ⟨nl, s.posts + 1⟩)) := by
  constructor
  · intro i hi
    simp [createMailingList, getMailingListId, hi]
  · intro hmiss hnodup i hi
    have hlen : ((nl.map Prod.fst).dedup).length = nl.length := by
      rw [List.dedup_eq_self.mpr hnodup, List.length_map]
    have hlist : listMailingLists nl = .ok nl := by
      simp [listMailingLists, hlen]
    have hget : getMailingListId nl name = .ok i := by
      simp [getMailingListId, hi]
    refine ⟨?_, hget, ?_⟩
    · simp [createMailingList, getMailingListId, hmiss, hlist, hi]
    · simp [createMailingList, hget]

/-- C2 witness: creating a fresh name posts once and caches the new
listing; creating it again returns the same id with no further POST. -/
theorem create_mailing_list_idempotent_witness :
    createMailingList ⟨[("a", "1")], 0⟩ "b" [("a", "1"), ("b", "2")] =
      .ok ("2", ⟨[("a", "1"), ("b", "2")], 1⟩) ∧
    createMailingList ⟨[("a", "1"), ("b", "2")], 1⟩ "b" [("a", "1"), ("b", "2")] =
      .ok ("2", ⟨[("a", "1"), ("b", "2")], 1⟩) ∧
    createMailingList ⟨[("a", "1")], 0⟩ "a" [("a", "1"), ("b", "2")] =
      .ok ("1", ⟨[("a", "1")], 0⟩) := by
  have h := (create_mailing_list_idempotent ⟨[("a", "1")], 0⟩ "b"
    [("a", "1"), ("b", "2")]).2 (by decide) (by decide) "2" (by decide)
  exact ⟨h.1, h.2.2,
    (create_mailing_list_idempotent ⟨[("a", "1")], 0⟩ "a"
      [("a", "1"), ("b", "2")]).1 "1" (by decide)⟩

/-- C3: a listing response whose names are not pairwise distinct makes
cache construction fail with the duplicate-name consistency error — the
check precedes the construction of the name-to-attributes mapping, so no
mapping is produced — and a create that reloads from such a listing
propagates the error, returning no new cache state. -/
theorem duplicate_names_abort_cache (listing : List (String × String))
    (hdup : ¬ (listing.map Prod.fst).Nodup) :
    listMailingLists listing = .error () ∧
    ∀ (s : MLState) (name : String), s.mls.lookup name = none →
      createMailingList s name listing = .error () := by
  have hne : ((listing.map Prod.fst).dedup).length ≠ listing.length := by
    have h := dedup_length_ne_of_not_nodup (listing.map Prod.fst) hdup
    rwa [List.length_map] at h
  have herr : listMailingLists listing = .error () := by
    simp [listMailingLists, hne]
  exact ⟨herr, fun s name hmiss => by
    simp [createMailingList, getMailingListId, hmiss, herr]⟩

/-- C3 witness: two entries named "a" abort both the plain listing call and
a create that reloads from it. -/
theorem duplicate_names_abort_cache_witness :
    listMailingLists [("a", "1"), ("a", "2")] = .error () ∧
    createMailingList ⟨[], 0⟩ "a" [("a", "1"), ("a", "2")] = .error () := by
  have h := duplicate_names_abort_cache [("a", "1"), ("a", "2")] (by decide)
  exact ⟨h.1, h.2 ⟨[], 0⟩ "a" (by decide)⟩

/-! ## Claim theorems for the contacts paginator and the row flattener -/

/-- Chain shape of a cursor and the pages still to be fetched: every page
but the last carries a cursor to the next, the last carries none. -/
def cursorChain : Option String → List ContactPage → Bool
  | none, [] => true
  | some _, p :: rest => cursorChain p.nextPage rest
  | none, _ :: _ => false
  | some _, [] => false

/-- Appending one element at a time via a fold is mapping then appending. -/
theorem foldl_append_map {α β : Type} (f : α → β) (l : List α) (acc : List β) :
    l.foldl (fun a e => a ++ [f e]) acc = acc ++ l.map f := by
  induction l generalizing acc with
  | nil => simp
  | cons e l ih => simp [ih]

/-- The page flattener as a fold equals the flatten of the per-contact
maps, prefixed by the accumulator. -/
theorem parseDistributionPage_foldl (people : List Person) (acc : List JObj) :
    people.foldl
      (fun a p => p.emailHistory.foldl (fun a e => a ++ [dictUnion (pdict p) e]) a)
      acc =
    acc ++ (people.map fun p => p.emailHistory.map
      fun e => dictUnion (pdict p) e).flatten := by
  induction people generalizing acc with
  | nil => simp
  | cons p ps ih =>
    simp only [List.foldl_cons, List.map_cons, List.flatten_cons]
    rw [foldl_append_map, ih, List.append_assoc]

/-- The accumulated rows of the while loop over a cursor chain. -/
theorem getDistributionLoop_chain (pages : List ContactPage)
    (next : Option String) (acc : List JObj)
    (hchain : cursorChain next pages = true) :
    getDistributionLoop pages next acc =
      some (acc ++ (pages.map fun p => parseDistributionPage p.elements).flatten) := by
  induction pages generalizing next acc with
  | nil =>
    cases next with
    | none => simp [getDistributionLoop]
    | some c => simp [cursorChain] at hchain
  | cons p rest ih =>
    cases next with
    | none => simp [cursorChain] at hchain
    | some c =>
      simp only [cursorChain] at hchain
      simp only [getDistributionLoop]
      rw [ih p.nextPage _ hchain]
      simp

/-- C7: over any chain of contact pages linked by nextPage cursors ending
in none, the paginator fetches the initial page and then each successive
page while a cursor is present, and returns exactly the concatenation of
all pages parsed elements in arrival order. -/
theorem paginator_concatenates_pages (p : ContactPage) (rest : List ContactPage)
    (hchain : cursorChain p.nextPage rest = true) :
    getDistribution (p :: rest) =
      some (((p :: rest).map fun q => parseDistributionPage q.elements).flatten) := by
  simp only [getDistribution]
  rw [getDistributionLoop_chain rest p.nextPage _ hchain]
  simp

/-- C7 witness: a 3-page chain with cursors B and C then none returns the
three parsed pages concatenated in order. -/
theorem paginator_concatenates_pages_witness :
    getDistribution
      [⟨[⟨"c1", "e1", "en", false,
          [[("sentAt", .str "t1")], [("sentAt", .str "t2")]]⟩], some "B"⟩,
       ⟨[⟨"c2", "e2", "fr", true, [[("sentAt", .str "t3")]]⟩], some "C"⟩,
       ⟨[⟨"c3", "e3", "de", false, [[("sentAt", .str "t4")]]⟩], none⟩] =
      some
        [[("contactid", .str "c1"), ("email", .str "e1"),
          ("language", .str "en"), ("unsubscribed", .bool false),
          ("sentAt", .str "t1")],
         [("contactid", .str "c1"), ("email", .str "e1"),
          ("language", .str "en"), ("unsubscribed", .bool false),
          ("sentAt", .str "t2")],
         [("contactid", .str "c2"), ("email", .str "e2"),
          ("language", .str "fr"), ("unsubscribed", .bool true),
          ("sentAt", .str "t3")],
         [("contactid", .str "c3"), ("email", .str "e3"),
          ("language", .str "de"), ("unsubscribed", .bool false),
          ("sentAt", .str "t4")]] := by
  have h := paginator_concatenates_pages
    ⟨[⟨"c1", "e1", "en", false,
        [[("sentAt", .str "t1")], [("sentAt", .str "t2")]]⟩], some "B"⟩
    [⟨[⟨"c2", "e2", "fr", true, [[("sentAt", .str "t3")]]⟩], some "C"⟩,
     ⟨[⟨"c3", "e3", "de", false, [[("sentAt", .str "t4")]]⟩], none⟩]
    (by decide)
  exact h.trans (by decide)

/-- C8: the tabular converter turns each contact record into one flat row
per entry of its nested email-history list — the row being the Python dict
merge of the contact-level fields with that entry — and across a page the
output is the concatenation of the per-contact rows in order; a contact
with N history entries yields exactly N rows. -/
theorem converter_flattens_history (people : List Person) :
    parseDistributionPage people =
      (people.map fun p => p.emailHistory.map
        fun e => dictUnion (pdict p) e).flatten ∧
    ∀ p : Person, (parseDistributionPage [p]).length = p.emailHistory.length := by
  constructor
  · simpa using parseDistributionPage_foldl people []
  · intro p
    have h := parseDistributionPage_foldl [p] []
    simp only [parseDistributionPage]
    rw [h]
    simp

/-! ## Claim theorems for client construction -/

/-- C9 counterexample: with the environment variable absent, even a
construction that supplies the token explicitly fails — the claim that it
succeeds regardless of the environment variable is false, because the
dataclass field default reads the variable at class-definition (import)
time. -/
theorem token_env_counterexample :
    constructFlow none "https://x" "lib" (some "tok") = .error () := rfl

/-- C9 (amended): the environment variable is read once, at
class-definition (module import) time; its absence is fatal then,
regardless of whether a token is later supplied explicitly.  After a
successful import, construction with an explicit token uses that token and
construction without one uses the captured environment value. -/
theorem token_env_semantics (base lib v tok : String) :
    constructFlow none base lib (some tok) = .error () ∧
    constructFlow none base lib none = .error () ∧
    constructFlow (some v) base lib (some tok) =
      .ok { base_url := base, library_id := lib, api_token := tok,
            headers := [("content-type", "application/json"),
                        ("x-api-token", tok)] } ∧
    constructFlow (some v) base lib none =
      .ok { base_url := base, library_id := lib, api_token := v,
            headers := [("content-type", "application/json"),
                        ("x-api-token", v)] } :=
  ⟨rfl, rfl, rfl, rfl⟩

end Qualpy
